import Mathlib

/-!
Shallow embedding of the banking service in `src/server.py` (FastAPI + SQLite).

The durable state (the two SQLite tables `accounts` and `transactions`) is
modelled as a `Bank` value holding the two tables as lists of rows together
with the autoincrement counters for the two `INTEGER PRIMARY KEY AUTOINCREMENT`
columns (SQLite row ids start at 1).  SQL `REAL` amounts are modelled as exact
rationals (`ℚ`); wall-clock timestamps (`datetime.now().isoformat()`) are
ambient real time and are omitted from the record model — no claim depends on
their values, and §4.2 of the spec orders history by record id, not timestamp.

Each endpoint is a pure function on `Bank`.  An endpoint that can raise
`HTTPException(status_code, detail)` returns `Except HTTPError Bank`; raising
before `conn.commit()` (or the explicit `conn.rollback()` in `transfer_funds`)
leaves the database untouched, hence an error result carries no new state.
-/

/-- The `type` column of the `transactions` table: the string tags written by
`server.py` (`"DEPOSIT"`, `"WITHDRAWAL"`, `"TRANSFER_OUT"`, `"TRANSFER_IN"`). -/
inductive TransType where
  | DEPOSIT
  | WITHDRAWAL
  | TRANSFER_OUT
  | TRANSFER_IN
deriving Repr, DecidableEq

/-- A row of the `transactions` table (timestamp omitted, see module header). -/
structure TransactionRecord where
  id : Nat
  account_id : Nat
  type : TransType
  amount : ℚ
deriving Repr, DecidableEq

/-- A row of the `accounts` table. -/
structure Account where
  id : Nat
  name : String
  balance : ℚ
deriving Repr, DecidableEq

/-- The durable state: both tables plus the two autoincrement counters. -/
structure Bank where
  accounts : List Account
  nextAccountId : Nat
  transactions : List TransactionRecord
  nextTransId : Nat
deriving Repr, DecidableEq

/-- A raised `HTTPException(status_code=..., detail=...)`. -/
structure HTTPError where
  status_code : Nat
  detail : String
deriving Repr, DecidableEq

instance {ε α : Type} [DecidableEq ε] [DecidableEq α] : DecidableEq (Except ε α) := fun x y =>
  match x, y with
  | .error e, .error f =>
      if h : e = f then .isTrue (by rw [h]) else .isFalse (fun hh => by cases hh; exact h rfl)
  | .ok a, .ok b =>
      if h : a = b then .isTrue (by rw [h]) else .isFalse (fun hh => by cases hh; exact h rfl)
  | .error _, .ok _ => .isFalse (fun hh => by cases hh)
  | .ok _, .error _ => .isFalse (fun hh => by cases hh)

/-- The fresh database produced by `init_db()`: both tables empty, both
autoincrement counters at 1 (SQLite assigns row ids starting from 1). -/
def initBank : Bank := ⟨[], 1, [], 1⟩

/-- `SELECT ... FROM accounts WHERE id = ?` followed by `fetchone()`:
the first row whose `id` column matches. -/
def findAccount (b : Bank) (i : Nat) : Option Account :=
  b.accounts.find? (fun a => a.id == i)

/-- `UPDATE accounts SET balance = balance + ? WHERE id = ?`.
Every matching row is updated; when no row matches (nonexistent id) the
statement succeeds and changes nothing — SQLite raises no error. -/
def updateBalance (b : Bank) (i : Nat) (delta : ℚ) : Bank :=
  { b with accounts :=
      b.accounts.map (fun a => if a.id == i then { a with balance := a.balance + delta } else a) }

/-- `log_transaction(cursor, account_id, trans_type, amount)` (server.py:44):
one `INSERT INTO transactions ...`, which appends a row with the next
autoincrement id.  SQLite does not enforce the `FOREIGN KEY` clause by default
(no `PRAGMA foreign_keys = ON` is issued), so `account_id` need not reference
an existing account. -/
def log_transaction (b : Bank) (account_id : Nat) (trans_type : TransType) (amount : ℚ) : Bank :=
  { b with
    transactions := b.transactions ++ [⟨b.nextTransId, account_id, trans_type, amount⟩],
    nextTransId := b.nextTransId + 1 }

/-- `POST /accounts/` (server.py:80, `create_account`): inserts the account row
with `balance = initial_deposit` (no validation of the sign of
`initial_deposit`), logs a DEPOSIT iff `initial_deposit > 0`, commits.
Returns the new state and `cursor.lastrowid`. -/
def create_account (b : Bank) (name : String) (initial_deposit : ℚ) : Bank × Nat :=
  let account_id := b.nextAccountId
  let b1 : Bank :=
    { b with accounts := b.accounts ++ [⟨account_id, name, initial_deposit⟩],
             nextAccountId := b.nextAccountId + 1 }
  if initial_deposit > 0 then
    (log_transaction b1 account_id .DEPOSIT initial_deposit, account_id)
  else
    (b1, account_id)

/-- `POST /accounts/{account_id}/deposit` (server.py:108). -/
def deposit (b : Bank) (account_id : Nat) (amount : ℚ) : Except HTTPError Bank :=
  if amount ≤ 0 then
    .error ⟨400, "Amount must be positive."⟩
  else
    match findAccount b account_id with
    | none => .error ⟨404, "Account not found"⟩
    | some _ =>
        .ok (log_transaction (updateBalance b account_id amount) account_id .DEPOSIT amount)

/-- `POST /accounts/{account_id}/withdraw` (server.py:125). -/
def withdraw (b : Bank) (account_id : Nat) (amount : ℚ) : Except HTTPError Bank :=
  if amount ≤ 0 then
    .error ⟨400, "Amount must be positive."⟩
  else
    match findAccount b account_id with
    | none => .error ⟨404, "Account not found."⟩
    | some a =>
        if a.balance < amount then
          .error ⟨400, "Insufficient funds."⟩
        else
          .ok (log_transaction (updateBalance b account_id (-amount)) account_id .WITHDRAWAL amount)

/-- `POST /transfer` (server.py:150, `transfer_funds`).  Faithful to the
source: the only checks are sender existence and `current_balance <
request.amount`; there is no `amount > 0` check and no receiver-existence
check.  On any raised `HTTPException` the transaction is rolled back (error
result, no new state); otherwise both `UPDATE`s and both log inserts commit. -/
def transfer_funds (b : Bank) (from_account_id to_account_id : Nat) (amount : ℚ) :
    Except HTTPError Bank :=
  match findAccount b from_account_id with
  | none => .error ⟨404, "Sender account not found."⟩
  | some sender =>
      if sender.balance < amount then
        .error ⟨400, "Insufficient funds."⟩
      else
        let b1 := updateBalance b from_account_id (-amount)
        let b2 := updateBalance b1 to_account_id amount
        let b3 := log_transaction b2 from_account_id .TRANSFER_OUT amount
        let b4 := log_transaction b3 to_account_id .TRANSFER_IN amount
        .ok b4

/-- Insert a record into a list kept in descending order of `id`
(auxiliary for modelling SQL `ORDER BY id DESC`). -/
def insertDescById (t : TransactionRecord) : List TransactionRecord → List TransactionRecord
  | [] => [t]
  | u :: us => if u.id ≤ t.id then t :: u :: us else u :: insertDescById t us

/-- Sort records by `id` descending (insertion sort), modelling
`ORDER BY id DESC`. -/
def sortDescById : List TransactionRecord → List TransactionRecord
  | [] => []
  | t :: ts => insertDescById t (sortDescById ts)

/-- `GET /accounts/{account_id}/history` (server.py:214,
`get_transaction_history`): `SELECT ... FROM transactions WHERE account_id = ?
ORDER BY id DESC LIMIT 10`.  The endpoint declares no `limit` parameter; the
bound is the literal 10.  There is no account-existence check: the rows are
whatever references the id. -/
def get_transaction_history (b : Bank) (account_id : Nat) : List TransactionRecord :=
  (sortDescById (b.transactions.filter (fun t => t.account_id == account_id))).take 10

/-- `GET /accounts/{account_id}` (server.py:94, `get_balance`). -/
def get_balance (b : Bank) (account_id : Nat) : Except HTTPError (String × ℚ) :=
  match findAccount b account_id with
  | none => .error ⟨404, "Account not found"⟩
  | some a => .ok (a.name, a.balance)

/-! ### Basic lemmas about the state operations -/

/-- The `UPDATE` row function never changes the `id` column. -/
lemma updRow_id (i : Nat) (d : ℚ) (a : Account) :
    (if a.id == i then { a with balance := a.balance + d } else a).id = a.id := by
  split <;> rfl

/-- `SELECT ... WHERE id = ?` commutes with `UPDATE ... WHERE id = ?`:
looking a row up after the update finds the updated row. -/
lemma find?_map_updRow (l : List Account) (i j : Nat) (d : ℚ) :
    (l.map (fun a => if a.id == i then { a with balance := a.balance + d } else a)).find?
        (fun a => a.id == j) =
      (l.find? (fun a => a.id == j)).map
        (fun a => if a.id == i then { a with balance := a.balance + d } else a) := by
  rw [List.find?_map]
  have hp : ((fun a : Account => a.id == j) ∘
      (fun a => if a.id == i then { a with balance := a.balance + d } else a)) =
      (fun a : Account => a.id == j) := by
    funext a
    simp only [Function.comp]
    rw [updRow_id]
  rw [hp]

lemma findAccount_updateBalance (b : Bank) (i j : Nat) (d : ℚ) :
    findAccount (updateBalance b i d) j =
      (findAccount b j).map
        (fun a => if a.id == i then { a with balance := a.balance + d } else a) :=
  find?_map_updRow b.accounts i j d

lemma findAccount_log_transaction (b : Bank) (k : Nat) (ty : TransType) (amt : ℚ) (j : Nat) :
    findAccount (log_transaction b k ty amt) j = findAccount b j := rfl

lemma transactions_updateBalance (b : Bank) (i : Nat) (d : ℚ) :
    (updateBalance b i d).transactions = b.transactions := rfl

lemma nextTransId_updateBalance (b : Bank) (i : Nat) (d : ℚ) :
    (updateBalance b i d).nextTransId = b.nextTransId := rfl

/-- If the row lookup succeeds, the found row has the looked-up id. -/
lemma findAccount_id {b : Bank} {i : Nat} {a : Account} (h : findAccount b i = some a) :
    a.id = i := by
  have h' : b.accounts.find? (fun a => a.id == i) = some a := h
  have h2 := List.find?_some h'
  simp only [beq_iff_eq] at h2
  exact h2

/-! ### Success- and failure-shape lemmas for the endpoints -/

/-- Shape of a committed `transfer_funds`: sender found with sufficient
balance means both `UPDATE`s and both log inserts commit. -/
lemma transfer_funds_ok {b : Bank} {f t : Nat} {amt : ℚ} {s : Account}
    (hs : findAccount b f = some s) (hbal : ¬ s.balance < amt) :
    transfer_funds b f t amt =
      .ok (log_transaction
            (log_transaction (updateBalance (updateBalance b f (-amt)) t amt)
              f .TRANSFER_OUT amt)
            t .TRANSFER_IN amt) := by
  unfold transfer_funds
  rw [hs]
  simp [hbal]

/-- A `transfer_funds` with an unknown sender raises 404 and commits nothing. -/
lemma transfer_funds_no_sender {b : Bank} {f t : Nat} {amt : ℚ}
    (hs : findAccount b f = none) :
    transfer_funds b f t amt = .error ⟨404, "Sender account not found."⟩ := by
  unfold transfer_funds
  rw [hs]

/-- A `transfer_funds` against an insufficient sender balance raises 400. -/
lemma transfer_funds_insufficient {b : Bank} {f t : Nat} {amt : ℚ} {s : Account}
    (hs : findAccount b f = some s) (hbal : s.balance < amt) :
    transfer_funds b f t amt = .error ⟨400, "Insufficient funds."⟩ := by
  unfold transfer_funds
  rw [hs]
  simp [hbal]

/-- Shape of a committed `withdraw`. -/
lemma withdraw_ok {b : Bank} {i : Nat} {amt : ℚ} {a : Account}
    (hamt : 0 < amt) (ha : findAccount b i = some a) (hbal : ¬ a.balance < amt) :
    withdraw b i amt =
      .ok (log_transaction (updateBalance b i (-amt)) i .WITHDRAWAL amt) := by
  unfold withdraw
  rw [if_neg (not_le.mpr hamt), ha]
  simp [hbal]

/-- Shape of a committed `deposit`. -/
lemma deposit_ok {b : Bank} {i : Nat} {amt : ℚ} {a : Account}
    (hamt : 0 < amt) (ha : findAccount b i = some a) :
    deposit b i amt =
      .ok (log_transaction (updateBalance b i amt) i .DEPOSIT amt) := by
  unfold deposit
  rw [if_neg (not_le.mpr hamt), ha]

/-! ### Lemmas about the `ORDER BY id DESC` model -/

lemma mem_insertDescById {u t : TransactionRecord} {l : List TransactionRecord} :
    u ∈ insertDescById t l ↔ u = t ∨ u ∈ l := by
  induction l with
  | nil => simp [insertDescById]
  | cons v vs ih =>
      simp only [insertDescById]
      split
      · simp [List.mem_cons]
      · simp only [List.mem_cons, ih]
        tauto

lemma mem_sortDescById {u : TransactionRecord} {l : List TransactionRecord} :
    u ∈ sortDescById l ↔ u ∈ l := by
  induction l with
  | nil => simp [sortDescById]
  | cons t ts ih => simp [sortDescById, mem_insertDescById, ih]

lemma pairwise_insertDescById {t : TransactionRecord} {l : List TransactionRecord}
    (h : l.Pairwise (fun t₁ t₂ => t₂.id ≤ t₁.id)) :
    (insertDescById t l).Pairwise (fun t₁ t₂ => t₂.id ≤ t₁.id) := by
  induction l with
  | nil => simp [insertDescById]
  | cons v vs ih =>
      rw [List.pairwise_cons] at h
      obtain ⟨hv, hvs⟩ := h
      simp only [insertDescById]
      split
      · rename_i hle
        rw [List.pairwise_cons]
        refine ⟨?_, List.pairwise_cons.mpr ⟨hv, hvs⟩⟩
        intro u hu
        rcases List.mem_cons.mp hu with rfl | hu
        · exact hle
        · exact le_trans (hv u hu) hle
      · rename_i hgt
        rw [List.pairwise_cons]
        refine ⟨?_, ih hvs⟩
        intro u hu
        rcases mem_insertDescById.mp hu with rfl | hu
        · exact le_of_not_le hgt
        · exact hv u hu

lemma pairwise_sortDescById (l : List TransactionRecord) :
    (sortDescById l).Pairwise (fun t₁ t₂ => t₂.id ≤ t₁.id) := by
  induction l with
  | nil => simp [sortDescById]
  | cons t ts ih => exact pairwise_insertDescById ih

/-! ### Concrete states used as witnesses and counterexamples

All of them are reachable from the fresh database `initBank` by committed
endpoint calls, as the reachability equations below prove. -/

/-- State after `create_account("Alice", initial_deposit=100)` on a fresh
database: Alice has id 1, balance 100, one DEPOSIT record. -/
def aliceBank : Bank := (create_account initBank "Alice" 100).1

/-- State after `create_account("A", 0)` then `create_account("B", 0)` on a
fresh database: two accounts with balance 0 and an empty transaction log. -/
def twoZeroBank : Bank :=
  (create_account (create_account initBank "A" 0).1 "B" 0).1

/-- State after `create_account("A", 100)` then `create_account("B", 0)`. -/
def bankAB : Bank :=
  (create_account (create_account initBank "A" 100).1 "B" 0).1

lemma aliceBank_eq :
    aliceBank = ⟨[⟨1, "Alice", 100⟩], 2, [⟨1, 1, .DEPOSIT, 100⟩], 2⟩ := by
  norm_num [aliceBank, initBank, create_account, log_transaction]

lemma twoZeroBank_eq :
    twoZeroBank = ⟨[⟨1, "A", 0⟩, ⟨2, "B", 0⟩], 3, [], 1⟩ := by
  norm_num [twoZeroBank, initBank, create_account, log_transaction]

lemma bankAB_eq :
    bankAB = ⟨[⟨1, "A", 100⟩, ⟨2, "B", 0⟩], 3, [⟨1, 1, .DEPOSIT, 100⟩], 2⟩ := by
  norm_num [bankAB, initBank, create_account, log_transaction]

/-- State committed by `transfer_funds(1, 999, 50)` from `aliceBank`, even
though no account 999 exists: Alice is debited 50 and both transfer records
are logged (the TRANSFER_IN referencing the nonexistent id 999). -/
def ghostBank : Bank :=
  ⟨[⟨1, "Alice", 50⟩], 2,
   [⟨1, 1, .DEPOSIT, 100⟩, ⟨2, 1, .TRANSFER_OUT, 50⟩, ⟨3, 999, .TRANSFER_IN, 50⟩], 4⟩

/-- The code commits a transfer to the nonexistent account 999: there is no
receiver-existence check in `transfer_funds`, and SQLite's `UPDATE` of a
missing row plus the unenforced foreign key both succeed silently. -/
lemma transfer_alice_to_999 : transfer_funds aliceBank 1 999 50 = .ok ghostBank := by
  rw [aliceBank_eq]
  norm_num [transfer_funds, findAccount, updateBalance, log_transaction, List.find?, ghostBank]

/-- State after `create_account("Alice", 100)` and three deposits of 10:
four DEPOSIT records for account 1. -/
def c8Bank : Bank :=
  ⟨[⟨1, "Alice", 130⟩], 2,
   [⟨1, 1, .DEPOSIT, 100⟩, ⟨2, 1, .DEPOSIT, 10⟩, ⟨3, 1, .DEPOSIT, 10⟩, ⟨4, 1, .DEPOSIT, 10⟩], 5⟩

/-! ### Claim theorems -/

/-- C1: the claim says a transfer whose sender exists with sufficient balance
but whose receiver id matches no account fails with ReceiverNotFound, leaving
the sender's balance and the transaction log unchanged.  The code has no
receiver-existence check at all: from the reachable state `aliceBank` (Alice,
id 1, balance 100; 999 nonexistent), `transfer_funds(1, 999, 50)` COMMITS,
debits Alice from 100 to 50, and appends two records — the claimed behavior
does not occur. -/
theorem C1_transfer_missing_receiver_commits :
    transfer_funds aliceBank 1 999 50 = .ok ghostBank ∧
    findAccount aliceBank 999 = none ∧
    (findAccount aliceBank 1).map Account.balance = some 100 ∧
    (findAccount ghostBank 1).map Account.balance = some 50 ∧
    ghostBank.transactions = aliceBank.transactions ++
      [⟨2, 1, .TRANSFER_OUT, 50⟩, ⟨3, 999, .TRANSFER_IN, 50⟩] := by
  refine ⟨transfer_alice_to_999, ?_, ?_, rfl, ?_⟩
  · rw [aliceBank_eq]; rfl
  · rw [aliceBank_eq]; rfl
  · rw [aliceBank_eq]; rfl

/-- C2: the claim says no committed operation sequence can produce a negative
balance.  It can: from a fresh database, `create("A", 0)`, `create("B", 0)`,
then `transfer_funds(1, 2, -50)` commits (the sender check `0 < -50` passes
because there is no `amount > 0` validation) and leaves account 2 with
balance -50. -/
theorem C2_negative_balance_reachable :
    (transfer_funds twoZeroBank 1 2 (-50)).map
        (fun b => (findAccount b 2).map Account.balance) = .ok (some (-50)) ∧
    ((-50 : ℚ) < 0) := by
  constructor
  · rw [twoZeroBank_eq]
    norm_num [transfer_funds, findAccount, updateBalance, log_transaction, List.find?,
      Except.map]
    exact ⟨_, rfl, rfl⟩
  · norm_num

/-- C3: the claim says every transfer with `amount <= 0` fails with
InvalidAmount, mutating nothing and appending nothing.  `transfer_funds` never
checks the sign of the amount: from the reachable state `twoZeroBank` (two
accounts, both balance 0), `transfer_funds(1, 2, 0)` commits and appends two
zero-amount records. -/
theorem C3_nonpositive_amount_transfer_commits :
    ¬ ((0 : ℚ) > 0) ∧
    (transfer_funds twoZeroBank 1 2 0).map (fun b => b.transactions) =
      .ok [⟨1, 1, .TRANSFER_OUT, 0⟩, ⟨2, 2, .TRANSFER_IN, 0⟩] := by
  refine ⟨by norm_num, ?_⟩
  rw [twoZeroBank_eq]
  norm_num [transfer_funds, findAccount, updateBalance, log_transaction, List.find?, Except.map]

/-- C4: for every committed transfer between two distinct existing accounts,
the sender's balance decreases by exactly `amount`, the receiver's increases
by exactly `amount`, and their sum is conserved.  (A transfer from a state
where the sender exists with `balance >= amount` always commits.) -/
theorem C4_transfer_conservation (b : Bank) (f t : Nat) (amt : ℚ) (s r : Account)
    (hft : f ≠ t) (hs : findAccount b f = some s) (hr : findAccount b t = some r)
    (hbal : amt ≤ s.balance) :
    (transfer_funds b f t amt).map
        (fun b' => ((findAccount b' f).map Account.balance,
                    (findAccount b' t).map Account.balance)) =
      .ok (some (s.balance - amt), some (r.balance + amt)) ∧
    (s.balance - amt) + (r.balance + amt) = s.balance + r.balance := by
  constructor
  · rw [transfer_funds_ok hs (not_lt.mpr hbal)]
    have hsid := findAccount_id hs
    have hrid := findAccount_id hr
    simp only [Except.map, Except.ok.injEq, Prod.mk.injEq]
    constructor
    · rw [findAccount_log_transaction, findAccount_log_transaction,
        findAccount_updateBalance, findAccount_updateBalance, hs]
      simp [hsid, hft, sub_eq_add_neg]
    · rw [findAccount_log_transaction, findAccount_log_transaction,
        findAccount_updateBalance, findAccount_updateBalance, hr]
      simp [hrid, Ne.symm hft]
  · ring

/-- Witness for C4 at a concrete input: transferring 30 from A (id 1, balance
100) to B (id 2, balance 0) in `bankAB` yields balances 70 and 30 with the
sum conserved. -/
theorem C4_witness :
    (transfer_funds bankAB 1 2 30).map
        (fun b' => ((findAccount b' 1).map Account.balance,
                    (findAccount b' 2).map Account.balance)) =
      .ok (some ((100 : ℚ) - 30), some ((0 : ℚ) + 30)) ∧
    ((100 : ℚ) - 30) + ((0 : ℚ) + 30) = (100 : ℚ) + 0 :=
  C4_transfer_conservation bankAB 1 2 30 ⟨1, "A", 100⟩ ⟨2, "B", 0⟩ (by decide)
    (by rw [bankAB_eq]; rfl) (by rw [bankAB_eq]; rfl) (by norm_num)

/-- C5: withdraw with `amount > 0` on an existing account: when
`balance >= amount` it commits, decreasing the balance by exactly `amount`
and appending exactly one WITHDRAWAL record for `amount`; when
`balance < amount` it fails with InsufficientFunds (HTTP 400), committing
nothing (an error result carries no state change). -/
theorem C5_withdraw_spec (b : Bank) (i : Nat) (amt : ℚ) (a : Account)
    (hamt : 0 < amt) (ha : findAccount b i = some a) :
    (amt ≤ a.balance →
      (withdraw b i amt).map
          (fun b' => ((findAccount b' i).map Account.balance, b'.transactions)) =
        .ok (some (a.balance - amt),
             b.transactions ++ [⟨b.nextTransId, i, .WITHDRAWAL, amt⟩])) ∧
    (a.balance < amt → withdraw b i amt = .error ⟨400, "Insufficient funds."⟩) := by
  constructor
  · intro hle
    rw [withdraw_ok hamt ha (not_lt.mpr hle)]
    have hai := findAccount_id ha
    simp only [Except.map, Except.ok.injEq, Prod.mk.injEq]
    constructor
    · rw [findAccount_log_transaction, findAccount_updateBalance, ha]
      simp [hai, sub_eq_add_neg]
    · simp only [log_transaction, transactions_updateBalance, nextTransId_updateBalance]
  · intro hlt
    unfold withdraw
    rw [if_neg (not_le.mpr hamt), ha]
    simp [hlt]

/-- Witness for C5 at concrete inputs: withdrawing 30 from Alice (balance 100)
commits with balance 70 and one WITHDRAWAL record; withdrawing 150 fails with
InsufficientFunds. -/
theorem C5_witness :
    ((withdraw aliceBank 1 30).map
        (fun b' => ((findAccount b' 1).map Account.balance, b'.transactions)) =
      .ok (some ((100 : ℚ) - 30),
           aliceBank.transactions ++ [⟨aliceBank.nextTransId, 1, .WITHDRAWAL, 30⟩])) ∧
    withdraw aliceBank 1 150 = .error ⟨400, "Insufficient funds."⟩ :=
  ⟨(C5_withdraw_spec aliceBank 1 30 ⟨1, "Alice", 100⟩ (by norm_num)
      (by rw [aliceBank_eq]; rfl)).1 (by norm_num),
   (C5_withdraw_spec aliceBank 1 150 ⟨1, "Alice", 100⟩ (by norm_num)
      (by rw [aliceBank_eq]; rfl)).2 (by norm_num)⟩

/-- C6: every committed deposit appends exactly one DEPOSIT record, every
committed withdraw exactly one WITHDRAWAL record, and every committed transfer
exactly two records: a TRANSFER_OUT on the sender id and a TRANSFER_IN on the
receiver id, both carrying the same amount. -/
theorem C6_audit_record_counts (b : Bank) (i j : Nat) (amt : ℚ) :
    (∀ b', deposit b i amt = .ok b' →
        b'.transactions = b.transactions ++ [⟨b.nextTransId, i, .DEPOSIT, amt⟩]) ∧
    (∀ b', withdraw b i amt = .ok b' →
        b'.transactions = b.transactions ++ [⟨b.nextTransId, i, .WITHDRAWAL, amt⟩]) ∧
    (∀ b', transfer_funds b i j amt = .ok b' →
        b'.transactions = b.transactions ++
          [⟨b.nextTransId, i, .TRANSFER_OUT, amt⟩,
           ⟨b.nextTransId + 1, j, .TRANSFER_IN, amt⟩]) := by
  refine ⟨?_, ?_, ?_⟩ <;> intro b' hok
  · unfold deposit at hok
    split at hok
    · simp at hok
    · split at hok
      · simp at hok
      · injection hok with h
        subst h
        simp only [log_transaction, transactions_updateBalance, nextTransId_updateBalance]
  · unfold withdraw at hok
    split at hok
    · simp at hok
    · split at hok
      · simp at hok
      · split at hok
        · simp at hok
        · injection hok with h
          subst h
          simp only [log_transaction, transactions_updateBalance, nextTransId_updateBalance]
  · unfold transfer_funds at hok
    split at hok
    · simp at hok
    · split at hok
      · simp at hok
      · injection hok with h
        subst h
        simp only [log_transaction, transactions_updateBalance, nextTransId_updateBalance]
        simp [List.append_assoc]

/-- Witness for C6 at concrete inputs on `bankAB`: the committed results of
`deposit(1, 30)`, `withdraw(1, 30)` and `transfer(1, 2, 30)` (each written as
the state the endpoint returns) extend the log by exactly the claimed
records. -/
theorem C6_witness :
    (log_transaction (updateBalance bankAB 1 30) 1 .DEPOSIT 30).transactions =
      bankAB.transactions ++ [⟨bankAB.nextTransId, 1, .DEPOSIT, 30⟩] ∧
    (log_transaction (updateBalance bankAB 1 (-30)) 1 .WITHDRAWAL 30).transactions =
      bankAB.transactions ++ [⟨bankAB.nextTransId, 1, .WITHDRAWAL, 30⟩] ∧
    (log_transaction
        (log_transaction (updateBalance (updateBalance bankAB 1 (-30)) 2 30) 1 .TRANSFER_OUT 30)
        2 .TRANSFER_IN 30).transactions =
      bankAB.transactions ++ [⟨bankAB.nextTransId, 1, .TRANSFER_OUT, 30⟩,
                              ⟨bankAB.nextTransId + 1, 2, .TRANSFER_IN, 30⟩] :=
  ⟨(C6_audit_record_counts bankAB 1 2 30).1 _ rfl,
   (C6_audit_record_counts bankAB 1 2 30).2.1 _ rfl,
   (C6_audit_record_counts bankAB 1 2 30).2.2 _ rfl⟩

/-- C7: `create_account(name, initial_deposit)` with `initial_deposit >= 0`
(and a fresh autoincrement id, as the `PRIMARY KEY` guarantees) allocates the
next id, stores the account with `balance = initial_deposit`, and appends one
DEPOSIT record for the opening balance in the same commit exactly when
`initial_deposit > 0`; for `initial_deposit = 0` the log is untouched. -/
theorem C7_create_account_spec (b : Bank) (name : String) (d : ℚ) (hd : 0 ≤ d)
    (hfresh : ∀ a ∈ b.accounts, a.id ≠ b.nextAccountId) :
    (create_account b name d).2 = b.nextAccountId ∧
    findAccount (create_account b name d).1 b.nextAccountId =
      some ⟨b.nextAccountId, name, d⟩ ∧
    (0 < d → ((create_account b name d).1).transactions =
        b.transactions ++ [⟨b.nextTransId, b.nextAccountId, .DEPOSIT, d⟩]) ∧
    (d = 0 → ((create_account b name d).1).transactions = b.transactions) := by
  have hnone : b.accounts.find? (fun a => a.id == b.nextAccountId) = none :=
    List.find?_eq_none.mpr (fun x hx => by simp [hfresh x hx])
  have key : (b.accounts ++ [(⟨b.nextAccountId, name, d⟩ : Account)]).find?
      (fun a : Account => a.id == b.nextAccountId) = some ⟨b.nextAccountId, name, d⟩ := by
    rw [List.find?_append, hnone, Option.none_or]
    simp
  unfold create_account
  refine ⟨?_, ?_, ?_, ?_⟩
  · split <;> rfl
  · split
    · exact key
    · exact key
  · intro hdpos
    rw [if_pos hdpos]
    rfl
  · intro hd0
    subst hd0
    rw [if_neg (by norm_num)]

/-- Witness for C7 at a concrete input: creating "Alice" with opening balance
100 on a fresh database assigns id 1, stores balance 100, and logs one
DEPOSIT record of 100. -/
theorem C7_witness :
    (create_account initBank "Alice" 100).2 = initBank.nextAccountId ∧
    findAccount (create_account initBank "Alice" 100).1 initBank.nextAccountId =
      some ⟨initBank.nextAccountId, "Alice", 100⟩ ∧
    (create_account initBank "Alice" 100).1.transactions =
      initBank.transactions ++
        [⟨initBank.nextTransId, initBank.nextAccountId, .DEPOSIT, 100⟩] := by
  obtain ⟨h1, h2, h3, -⟩ :=
    C7_create_account_spec initBank "Alice" 100 (by norm_num) (by simp [initBank])
  exact ⟨h1, h2, h3 (by norm_num)⟩

/-- C8 counterexample: the claim says `history(accountId, limit)` returns at
most `limit` records for every limit.  The endpoint declares no `limit`
parameter — the bound is the literal 10 in the SQL — so a caller requesting
limit 3 is ignored: from the reachable state `c8Bank` (Alice with four DEPOSIT
records, reached by three deposits of 10 from `aliceBank`), the history
response necessarily holds 4 records, not at most 3. -/
theorem C8_counterexample :
    ((deposit aliceBank 1 10).bind fun b1 =>
        (deposit b1 1 10).bind fun b2 => deposit b2 1 10) = .ok c8Bank ∧
    (get_transaction_history c8Bank 1).length = 4 ∧
    ¬ ((get_transaction_history c8Bank 1).length ≤ 3) := by
  refine ⟨?_, rfl, by decide⟩
  rw [aliceBank_eq]
  norm_num [deposit, findAccount, updateBalance, log_transaction, List.find?, Except.bind,
    c8Bank]

/-- C8 as amended: `get_transaction_history(accountId)` exposes no limit
parameter; it always returns at most 10 records (the fixed `LIMIT 10`),
ordered by record id descending (most recent first), and every returned
record belongs to the requested account and to the stored log. -/
theorem C8_history_desc_capped (b : Bank) (i : Nat) :
    (get_transaction_history b i).length ≤ 10 ∧
    (get_transaction_history b i).Pairwise (fun t₁ t₂ => t₂.id ≤ t₁.id) ∧
    (∀ t ∈ get_transaction_history b i, t.account_id = i ∧ t ∈ b.transactions) := by
  unfold get_transaction_history
  refine ⟨List.length_take_le _ _, ?_, ?_⟩
  · exact (pairwise_sortDescById _).sublist (List.take_sublist _ _)
  · intro t ht
    have ht2 := mem_sortDescById.mp (List.take_subset _ _ ht)
    have ht3 := List.mem_filter.mp ht2
    refine ⟨?_, ht3.1⟩
    have h4 := ht3.2
    simp only [beq_iff_eq] at h4
    exact h4

/-- Witness for C8 at a concrete input: Alice's history in `aliceBank` has at
most 10 records, and its member (the DEPOSIT of 100) belongs to account 1 and
to the stored log. -/
theorem C8_witness :
    (get_transaction_history aliceBank 1).length ≤ 10 ∧
    (⟨1, 1, .DEPOSIT, 100⟩ : TransactionRecord).account_id = 1 ∧
    (⟨1, 1, .DEPOSIT, 100⟩ : TransactionRecord) ∈ aliceBank.transactions := by
  have hmem : (⟨1, 1, .DEPOSIT, 100⟩ : TransactionRecord) ∈
      get_transaction_history aliceBank 1 := by
    rw [aliceBank_eq]
    decide
  obtain ⟨h1, h2⟩ := (C8_history_desc_capped aliceBank 1).2.2 _ hmem
  exact ⟨(C8_history_desc_capped aliceBank 1).1, h1, h2⟩

/-- C9: a self-transfer `transfer(i, i, amount)` on an existing account with
`balance >= amount` commits, leaves the account's balance unchanged (debit
and credit hit the same row), and appends a TRANSFER_OUT and a TRANSFER_IN
record, both on that account and both for `amount`. -/
theorem C9_self_transfer (b : Bank) (i : Nat) (amt : ℚ) (a : Account)
    (ha : findAccount b i = some a) (hbal : amt ≤ a.balance) :
    (transfer_funds b i i amt).map
        (fun b' => ((findAccount b' i).map Account.balance, b'.transactions)) =
      .ok (some a.balance,
           b.transactions ++ [⟨b.nextTransId, i, .TRANSFER_OUT, amt⟩,
                              ⟨b.nextTransId + 1, i, .TRANSFER_IN, amt⟩]) := by
  rw [transfer_funds_ok ha (not_lt.mpr hbal)]
  have hai := findAccount_id ha
  simp only [Except.map, Except.ok.injEq, Prod.mk.injEq]
  constructor
  · rw [findAccount_log_transaction, findAccount_log_transaction,
      findAccount_updateBalance, findAccount_updateBalance, ha]
    simp [hai]
  · simp only [log_transaction, transactions_updateBalance, nextTransId_updateBalance]
    simp [List.append_assoc]

/-- Witness for C9 at a concrete input: Alice transferring 40 to herself
commits, her balance stays 100, and two records of amount 40 are appended. -/
theorem C9_witness :
    (transfer_funds aliceBank 1 1 40).map
        (fun b' => ((findAccount b' 1).map Account.balance, b'.transactions)) =
      .ok (some (100 : ℚ),
           aliceBank.transactions ++ [⟨aliceBank.nextTransId, 1, .TRANSFER_OUT, 40⟩,
                                      ⟨aliceBank.nextTransId + 1, 1, .TRANSFER_IN, 40⟩]) :=
  C9_self_transfer aliceBank 1 40 ⟨1, "Alice", 100⟩ (by rw [aliceBank_eq]; rfl)
    (by norm_num)

/-- C10 counterexample: the claim says history of a nonexistent account is
always the empty sequence.  Because `transfer_funds` logs a TRANSFER_IN for a
receiver that does not exist (see C1), the reachable state `ghostBank` has no
account 999 yet `history(999)` returns that record — nonempty. -/
theorem C10_counterexample :
    transfer_funds aliceBank 1 999 50 = .ok ghostBank ∧
    findAccount ghostBank 999 = none ∧
    get_transaction_history ghostBank 999 = [⟨3, 999, .TRANSFER_IN, 50⟩] :=
  ⟨transfer_alice_to_999, rfl, rfl⟩

/-- C10 as amended: `get_transaction_history` performs no account-existence
check and never fails with NotFound (it is total); for an accountId that no
account and no stored record references, it returns the empty sequence. -/
theorem C10_history_of_unknown_account (b : Bank) (i : Nat)
    (hacct : findAccount b i = none)
    (hrec : ∀ t ∈ b.transactions, t.account_id ≠ i) :
    get_transaction_history b i = [] := by
  unfold get_transaction_history
  have hfil : b.transactions.filter (fun t => t.account_id == i) = [] := by
    rw [List.filter_eq_nil_iff]
    intro t ht
    simp [hrec t ht]
  rw [hfil]
  rfl

/-- Witness for C10 at a concrete input: account 999 does not exist in
`aliceBank`, no record references it, and its history is empty. -/
theorem C10_witness :
    findAccount aliceBank 999 = none ∧ get_transaction_history aliceBank 999 = [] := by
  have hacct : findAccount aliceBank 999 = none := by rw [aliceBank_eq]; rfl
  exact ⟨hacct, C10_history_of_unknown_account aliceBank 999 hacct
    (by rw [aliceBank_eq]; decide)⟩
